import Mathlib

/-!
Verification development for the xuxu_AIBOT repository (FastAPI + Teams bot +
OpenAI Assistant + calendar integrations).  The definitions below are a
shallow embedding of the credential store (`main.py`, `models.py`), the
token refresh client (`token_utils.py`), the OAuth callback
(`auth_routes.py`), the tool dispatcher and run-poll loop (`main.py`), and
the Teams webhook endpoint (`main.py`).  Timestamps are modelled as `Int`
(both `datetime.utcnow()` comparisons in `main.py` and `time.time()` epoch
comparisons in `token_utils.py`/`auth_routes.py` are strict order
comparisons against "now").  External HTTP traffic is modelled by passing
the provider's response as an explicit argument, and database tables as
lists of rows in insertion order (SQL `.first()` picks the first matching
row in that order).
-/

namespace Xuxu

/-- A stored credential row: the `usertokens` table.  `models.py` declares
`expires_at : Optional[float]`, hence `Option Int`; `refresh_token` may be
absent (`main.py` declares it `Optional[str]`). -/
structure Credential where
  user_id : String
  provider : String
  access_token : String
  refresh_token : Option String
  expires_at : Option Int
deriving Repr, DecidableEq

/-- The credential table, rows in insertion order. -/
abbrev CredDB := List Credential

/-- The SQL filter `UserTokens.user_id == u, UserTokens.provider == p`. -/
def credMatches (u p : String) (t : Credential) : Bool :=
  t.user_id == u && t.provider == p

/-- Embeds `main.py get_user_token`: selects the first row for `(user_id, provider)`
whose `expires_at > utcnow()`; a row whose expiry is not in the future is
filtered out, so an expired credential yields `none` (no refresh is ever
attempted by this function). -/
def get_user_token (db : CredDB) (u p : String) (now : Int) : Option Credential :=
  db.find? (fun t => credMatches u p t &&
    match t.expires_at with
    | some e => decide (now < e)
    | none => false)

/-- Embeds `main.py save_user_token`: unconditionally constructs a fresh
`UserTokens` row and `session.add`s it — a plain SQL INSERT, appended to
the table (`expires_at = utcnow() + expires_in`). -/
def save_user_token (db : CredDB) (u p a_tok : String) (r_tok : Option String)
    (expires_in : Int) (now : Int) : CredDB :=
  db ++ [⟨u, p, a_tok, r_tok, some (now + expires_in)⟩]

/-- Python truthiness of `token.expires_at` (`None` and `0` are falsy), as
tested by `if token.expires_at and token.expires_at > time.time()`. -/
def pyTruthy : Option Int → Bool
  | none => false
  | some e => e != 0

/-- A provider token-endpoint JSON response together with its HTTP status.
`access_token`/`refresh_token`/`expires_in` may each be absent from the
JSON body. -/
structure TokenResponse where
  status : Nat
  access_token : Option String
  refresh_token : Option String
  expires_in : Option Int
deriving Repr, DecidableEq

/-- Embeds the `httpx` success statuses: `resp.raise_for_status()` passes exactly on 2xx. -/
def is2xx (s : Nat) : Bool := 200 ≤ s && s < 300

/-- In-place mutation of the row fetched by `.first()`: replace the first
row satisfying `pred` (the SQLAlchemy session updates that row on commit). -/
def updateFirst (pred : Credential → Bool) (row : Credential) : CredDB → CredDB
  | [] => []
  | t :: rest => if pred t then row :: rest else t :: updateFirst pred row rest

/-- Failures of `token_utils.refresh_google_token` / `refresh_ms_token`:
`Exception("Token ... não encontrado")`, `httpx.HTTPStatusError` from
`raise_for_status()` (the spec's `TokenRefreshFailed`), or a `KeyError` on
a body missing `access_token`. -/
inductive RefreshError where
  | notFound (provider : String)
  | httpStatus (code : Nat)
  | missingAccessToken
deriving Repr, DecidableEq

instance {ε α : Type} [DecidableEq ε] [DecidableEq α] : DecidableEq (Except ε α) := fun
  | .error e, .error f =>
    match decEq e f with
    | isTrue h => isTrue (by rw [h])
    | isFalse h => isFalse (fun c => h (Except.error.inj c))
  | .error _, .ok _ => isFalse (fun c => Except.noConfusion c)
  | .ok _, .error _ => isFalse (fun c => Except.noConfusion c)
  | .ok a, .ok b =>
    match decEq a b with
    | isTrue h => isTrue (by rw [h])
    | isFalse h => isFalse (fun c => h (Except.ok.inj c))

/-- Result of a refresh call: how many POSTs were issued to the provider's
token endpoint, the returned access token or the raised error, and the
credential table after the call. -/
structure RefreshOutcome where
  requests : Nat
  result : Except RefreshError String
  db : CredDB
deriving Repr, DecidableEq

/-- Common body of `token_utils.refresh_google_token` and
`refresh_ms_token` (the two functions are identical except for the
provider string and endpoint URL): fetch the first row for
`(user_id, provider)`; raise if absent; if
`token.expires_at and token.expires_at > time.time()` return the stored
access token unchanged; otherwise POST once to the token endpoint
(`resp` models its answer), `raise_for_status()` on non-2xx, read
`access_token` (KeyError if missing), set
`expires_at = time.time() + expires_in` (default 3600) and commit the
mutated row. -/
def refresh_token_core (provider : String) (db : CredDB) (u : String) (now : Int)
    (resp : TokenResponse) : RefreshOutcome :=
  match db.find? (credMatches u provider) with
  | none => ⟨0, .error (.notFound provider), db⟩
  | some token =>
    if pyTruthy token.expires_at && decide (now < token.expires_at.getD 0) then
      ⟨0, .ok token.access_token, db⟩
    else if !is2xx resp.status then
      ⟨1, .error (.httpStatus resp.status), db⟩
    else
      match resp.access_token with
      | none => ⟨1, .error .missingAccessToken, db⟩
      | some newTok =>
        let row := { token with access_token := newTok,
                                expires_at := some (now + resp.expires_in.getD 3600) }
        ⟨1, .ok newTok, updateFirst (credMatches u provider) row db⟩

/-- Embeds `token_utils.refresh_google_token`. -/
def refresh_google_token (db : CredDB) (u : String) (now : Int)
    (resp : TokenResponse) : RefreshOutcome :=
  refresh_token_core "google" db u now resp

/-- Embeds `token_utils.refresh_ms_token`. -/
def refresh_ms_token (db : CredDB) (u : String) (now : Int)
    (resp : TokenResponse) : RefreshOutcome :=
  refresh_token_core "microsoft" db u now resp

/-- The hard-coded acting user of `auth_routes.auth_callback`
(`user_id = "user-demo"`). -/
def demoUserId : String := "user-demo"

/-- What `auth_routes.auth_callback` returns to the browser: the success
JSON, or an `HTTPException` with the given status code. -/
inductive CallbackResult where
  | ok (provider : String) (user_id : String)
  | httpError (status : Nat)
deriving Repr, DecidableEq

/-- Embeds `auth_routes.auth_callback` (OAuth credentials assumed configured):
an unknown `state` is rejected with `HTTPException 400`; on the token
exchange, `resp.raise_for_status()` turns a non-2xx answer into an
`httpx.HTTPError`, re-raised as `HTTPException 400`; otherwise control
reaches the persistence block, whose first statement
`UserTokens.select()` raises `AttributeError` — SQLModel model classes
have no `select` classmethod (the module-level `select` is what the rest
of the repository uses, and `auth_routes.py` never imports it) — which the
generic `except Exception` handler converts into `HTTPException 500`.  The
lookup-then-update/insert code after that statement (hard-coding
`user_id = "user-demo"`) is dead: this route never reads or writes any
credential row, so the table is returned unchanged on every path.  The
`CallbackResult.ok` constructor models the success JSON the dead code
would return; no branch produces it. -/
def auth_callback (db : CredDB) (state : String) (resp : TokenResponse) :
    CallbackResult × CredDB :=
  if state != "google" && state != "microsoft" then (.httpError 400, db)
  else if !is2xx resp.status then (.httpError 400, db)
  else (.httpError 500, db)

/-- A decoded tool-argument object (`json.loads` of
`tool_call.function.arguments`, read back with `args.get(...)`). -/
abbrev Args := List (String × String)

/-- One entry of `run.required_action.submit_tool_outputs.tool_calls`. -/
structure ToolCall where
  id : String
  function_name : String
  arguments : String
deriving Repr, DecidableEq

/-- One entry appended to `tool_outputs` in `handle_tool_calls`. -/
structure ToolOutput where
  tool_call_id : String
  output : String
deriving Repr, DecidableEq

/-- One call to `client.beta.threads.runs.submit_tool_outputs`. -/
structure Submission where
  run_id : String
  tool_outputs : List ToolOutput
deriving Repr, DecidableEq

/-- The `if function_name == ... elif ...` dispatch chain in
`handle_tool_calls`.  The individual tool implementations
(`resumir_texto_tool`, `listar_eventos_google_tool`, ...) each wrap their
body in `try/except` and return a string in every case, so they are
modelled by the total evaluation function `toolEval`; `result` is
initialised to `"Função não encontrada"` and is left at that value when no
branch matches.  The source repeats the `listar_eventos_calendar`,
`criar_evento_calendar`, `buscar_usuarios`, `listar_eventos_google` and
`criar_evento_google` branches verbatim later in the chain; being `elif`s
of identical conditions they are unreachable and are not duplicated here. -/
def dispatch_tool (toolEval : String → Args → String)
    (function_name : String) (args : Args) : String :=
  if function_name == "resumir_texto" then toolEval "resumir_texto" args
  else if function_name == "analisar_dados" then toolEval "analisar_dados" args
  else if function_name == "criar_conteudo" then toolEval "criar_conteudo" args
  else if function_name == "traduzir" then toolEval "traduzir" args
  else if function_name == "resolver_problema" then toolEval "resolver_problema" args
  else if function_name == "listar_eventos_calendar" then toolEval "listar_eventos_calendar" args
  else if function_name == "criar_evento_calendar" then toolEval "criar_evento_calendar" args
  else if function_name == "buscar_usuarios" then toolEval "buscar_usuarios" args
  else if function_name == "listar_eventos_google" then toolEval "listar_eventos_google" args
  else if function_name == "criar_evento_google" then toolEval "criar_evento_google" args
  else "Função não encontrada"

/-- The function names handled by some branch of the dispatch chain. -/
def knownFunction (name : String) : Bool :=
  name == "resumir_texto" || name == "analisar_dados" || name == "criar_conteudo" ||
  name == "traduzir" || name == "resolver_problema" ||
  name == "listar_eventos_calendar" || name == "criar_evento_calendar" ||
  name == "buscar_usuarios" ||
  name == "listar_eventos_google" || name == "criar_evento_google"

/-- The `for tool_call in ...tool_calls:` loop of `handle_tool_calls`.
`argDecode` models `json.loads`; a call whose arguments do not decode makes
`json.loads` raise `json.decoder.JSONDecodeError`, which is not caught
anywhere inside `handle_tool_calls`, aborting the loop. -/
def collect_outputs (argDecode : String → Option Args)
    (toolEval : String → Args → String) :
    List ToolCall → Except String (List ToolOutput)
  | [] => .ok []
  | c :: rest =>
    match argDecode c.arguments with
    | none => .error "json.decoder.JSONDecodeError"
    | some args =>
      match collect_outputs argDecode toolEval rest with
      | .error e => .error e
      | .ok outs => .ok (⟨c.id, dispatch_tool toolEval c.function_name args⟩ :: outs)

/-- Embeds `main.py handle_tool_calls`: when the run carries a
`required_action.submit_tool_outputs` batch, produce one output per tool
call and, if the collected list is nonempty, submit it once via
`submit_tool_outputs`.  Returns the collected outputs together with the
list of submissions performed, or the uncaught exception.  -/
def handle_tool_calls (argDecode : String → Option Args)
    (toolEval : String → Args → String)
    (required_action : Option (List ToolCall)) (run_id : String) :
    Except String (List ToolOutput × List Submission) :=
  match required_action with
  | none => .ok ([], [])
  | some calls =>
    match collect_outputs argDecode toolEval calls with
    | .error e => .error e
    | .ok outs => .ok (outs, if outs.isEmpty then [] else [⟨run_id, outs⟩])

/-- Embeds `main.py listar_eventos_google_tool`: a missing credential
(`get_user_token` returns nothing) yields the authentication-required
message; inside the `try` block, any failure of the Google Calendar HTTP
round-trip (modelled by `httpResult`) is caught and rendered as an error
string; on success the formatted event list (abstracted as the payload of
`httpResult`) is returned.  The function returns a string on every path. -/
def listar_eventos_google_tool (db : CredDB) (u : String) (now : Int)
    (httpResult : Except String String) : String :=
  match get_user_token db u "google" now with
  | none => "❌ Usuário não autenticado no Google Calendar. Use /auth google"
  | some _token =>
    match httpResult with
    | .error e => "❌ Erro ao acessar Google Calendar: " ++ e
    | .ok rendered => rendered

/-- The fixed apology returned by `call_openai_assistant` when the run ends
in a terminal failure status. -/
def terminal_failure_message (status : String) : String :=
  "🤖 Opa! Encontrei um probleminha técnico (status: " ++ status ++ "). Pode tentar novamente?"

/-- The `while True:` poll loop of `call_openai_assistant`.  `statusAt i`
is the status reported by the i-th `runs.retrieve`; `finalReply` abstracts
the message fetched on completion.  A `requires_action` status services the
tool calls and keeps polling, exactly like `queued`/`running`; the loop has
no iteration cap, so it is embedded with explicit fuel: `none` means the
loop was still polling after `fuel` iterations. -/
def poll_loop (statusAt : Nat → String) (finalReply : String) :
    Nat → Nat → Option String
  | _, 0 => none
  | i, fuel + 1 =>
    let s := statusAt i
    if s == "completed" then some finalReply
    else if s == "failed" || s == "cancelled" || s == "expired" then
      some (terminal_failure_message s)
    else poll_loop statusAt finalReply (i + 1) fuel

/-- An HTTP response produced by the FastAPI layer. -/
structure HttpResponse where
  status : Nat
  body : String
deriving Repr, DecidableEq

/-- Embeds `main.py messages_endpoint` (`POST /api/messages`): on success returns
the adapter's invoke response or a bare 200; any exception from body
parsing, deserialization or `adapter.process_activity` is caught and
re-raised as `HTTPException(status_code=500, detail=str(e))`, i.e. an HTTP
500 error response to the platform. -/
def messages_endpoint (processing : Except String (Option HttpResponse)) :
    HttpResponse :=
  match processing with
  | .ok (some r) => r
  | .ok none => ⟨200, ""⟩
  | .error e => ⟨500, e⟩

/-- State of the conversation-thread registry: the `threadmapping` table
(rows `(conversation_id, thread_id)` in insertion order), the set of
threads existing at the remote OpenAI service, and a counter for fresh
remote thread ids. -/
structure ThreadState where
  mappings : List (String × String)
  remote : List String
  nextId : Nat
deriving Repr, DecidableEq

/-- Embeds `main.py get_thread_id`: first `threadmapping` row for the conversation. -/
def get_thread_id (s : ThreadState) (conv : String) : Option String :=
  (s.mappings.find? (fun m => m.1 == conv)).map (fun m => m.2)

/-- Embeds `main.py save_thread_mapping`: inserts a new `ThreadMapping` row. -/
def save_thread_mapping (s : ThreadState) (conv tid : String) : ThreadState :=
  { s with mappings := s.mappings ++ [(conv, tid)] }

/-- Embeds `client.beta.threads.create()`: a fresh thread comes into existence at
the remote service. -/
def create_remote_thread (s : ThreadState) : String × ThreadState :=
  let tid := "thread_" ++ toString s.nextId
  (tid, { s with remote := s.remote ++ [tid], nextId := s.nextId + 1 })

/-- Embeds `main.py get_or_create_thread`: look up the stored mapping; if one
exists, `threads.retrieve` it (which succeeds exactly when the thread still
exists remotely) and return it; otherwise — or when retrieval raises —
create a fresh remote thread and persist the mapping. -/
def get_or_create_thread (s : ThreadState) (conv : String) : String × ThreadState :=
  match get_thread_id s conv with
  | some tid =>
    if tid ∈ s.remote then (tid, s)
    else
      let p := create_remote_thread s
      (p.1, save_thread_mapping p.2 conv p.1)
  | none =>
    let p := create_remote_thread s
    (p.1, save_thread_mapping p.2 conv p.1)

/-- The `threadmapping` rows of one conversation. -/
def mappingsFor (s : ThreadState) (conv : String) : List (String × String) :=
  s.mappings.filter (fun m => m.1 == conv)

/-! ### Helper lemmas -/

theorem updateFirst_length (pred : Credential → Bool) (row : Credential) :
    ∀ l : CredDB, (updateFirst pred row l).length = l.length := by
  intro l
  induction l with
  | nil => rfl
  | cons t rest ih =>
    by_cases h : pred t = true
    · simp [updateFirst, h]
    · simp [updateFirst, h, ih]

theorem updateFirst_mem (pred : Credential → Bool) (row : Credential) :
    ∀ l : CredDB, (l.find? pred).isSome → row ∈ updateFirst pred row l := by
  intro l
  induction l with
  | nil => intro h; simp [List.find?] at h
  | cons t rest ih =>
    intro h
    by_cases hp : pred t = true
    · simp [updateFirst, hp]
    · have hfind : (t :: rest).find? pred = rest.find? pred := by
        simp [List.find?, hp]
      rw [hfind] at h
      simp [updateFirst, hp]
      exact Or.inr (ih h)

theorem refresh_core_valid (provider : String) (db : CredDB) (u : String)
    (now : Int) (resp : TokenResponse) (token : Credential)
    (hfind : db.find? (credMatches u provider) = some token)
    (hvalid : (pyTruthy token.expires_at && decide (now < token.expires_at.getD 0)) = true) :
    refresh_token_core provider db u now resp = ⟨0, .ok token.access_token, db⟩ := by
  simp [refresh_token_core, hfind, hvalid]

theorem refresh_core_http_error (provider : String) (db : CredDB) (u : String)
    (now : Int) (resp : TokenResponse) (token : Credential)
    (hfind : db.find? (credMatches u provider) = some token)
    (hvalid : (pyTruthy token.expires_at && decide (now < token.expires_at.getD 0)) = false)
    (h2 : is2xx resp.status = false) :
    refresh_token_core provider db u now resp =
      ⟨1, .error (.httpStatus resp.status), db⟩ := by
  simp [refresh_token_core, hfind, hvalid, h2]

theorem refresh_core_refreshes (provider : String) (db : CredDB) (u : String)
    (now : Int) (resp : TokenResponse) (token : Credential) (newTok : String)
    (hfind : db.find? (credMatches u provider) = some token)
    (hvalid : (pyTruthy token.expires_at && decide (now < token.expires_at.getD 0)) = false)
    (h2 : is2xx resp.status = true)
    (hat : resp.access_token = some newTok) :
    refresh_token_core provider db u now resp =
      ⟨1, .ok newTok,
        updateFirst (credMatches u provider)
          { token with access_token := newTok,
                       expires_at := some (now + resp.expires_in.getD 3600) } db⟩ := by
  simp [refresh_token_core, hfind, hvalid, h2, hat]

/-! ### Claim C1 -/

/-- C1, counterexample.  The stored credential for `("u1", "google")` is
expired at `now = 100` (its expiry is 50).  The claim says the
token-retrieval operation then invokes the provider's refresh and returns
the new access token; `main.py get_user_token` instead filters the expired
row out and returns nothing — it has no refresh pathway at all. -/
theorem C1_counterexample :
    get_user_token [⟨"u1", "google", "tok-old", some "r1", some 50⟩]
      "u1" "google" 100 = none := by
  decide

/-- C1, amended: `get_user_token` returns the stored credential only when
its expiry is strictly in the future and otherwise returns nothing without
refreshing; the refresh pathway lives in `refresh_google_token` /
`refresh_ms_token`, and whenever a refresh call returns an access token the
row holding it has an expiry strictly after `now` (given a positive
`expires_in`), so no pathway hands out a token whose expiry has passed. -/
theorem C1_amended :
    (∀ (db : CredDB) (u p : String) (now : Int) (t : Credential),
      get_user_token db u p now = some t →
      ∃ e, t.expires_at = some e ∧ now < e) ∧
    (∀ (db : CredDB) (u p : String) (now : Int),
      (∀ t ∈ db, credMatches u p t = true →
        ∀ e, t.expires_at = some e → e ≤ now) →
      get_user_token db u p now = none) ∧
    (∀ (db : CredDB) (u : String) (now : Int) (resp : TokenResponse) (a_tok : String),
      0 < resp.expires_in.getD 3600 →
      (refresh_google_token db u now resp).result = .ok a_tok →
      ∃ t ∈ (refresh_google_token db u now resp).db,
        t.access_token = a_tok ∧ ∃ e, t.expires_at = some e ∧ now < e) := by
  refine ⟨?_, ?_, ?_⟩
  · intro db u p now t h
    have hp := List.find?_some h
    cases ht : t.expires_at with
    | none => rw [ht] at hp; simp at hp
    | some e =>
      rw [ht] at hp
      simp only [Bool.and_eq_true, decide_eq_true_eq] at hp
      exact ⟨e, rfl, hp.2⟩
  · intro db u p now hall
    unfold get_user_token
    rw [List.find?_eq_none]
    intro x hx hpred
    simp only [Bool.and_eq_true] at hpred
    obtain ⟨hm, hrest⟩ := hpred
    cases hx2 : x.expires_at with
    | none => rw [hx2] at hrest; simp at hrest
    | some e =>
      rw [hx2] at hrest
      simp only [decide_eq_true_eq] at hrest
      exact absurd hrest (not_lt.mpr (hall x hx hm e hx2))
  · intro db u now resp a_tok hpos hok
    unfold refresh_google_token at hok ⊢
    cases hfind : db.find? (credMatches u "google") with
    | none =>
      rw [refresh_token_core, hfind] at hok
      simp at hok
    | some token =>
      by_cases hvalid :
          (pyTruthy token.expires_at && decide (now < token.expires_at.getD 0)) = true
      · rw [refresh_core_valid "google" db u now resp token hfind hvalid] at hok ⊢
        simp only [Except.ok.injEq] at hok
        subst hok
        refine ⟨token, List.mem_of_find?_eq_some hfind, rfl, ?_⟩
        simp only [Bool.and_eq_true, decide_eq_true_eq] at hvalid
        obtain ⟨htruthy, hlt⟩ := hvalid
        cases ht : token.expires_at with
        | none => rw [ht] at htruthy; simp [pyTruthy] at htruthy
        | some e =>
          rw [ht] at hlt
          exact ⟨e, rfl, by simpa using hlt⟩
      · have hvalid' :
            (pyTruthy token.expires_at && decide (now < token.expires_at.getD 0)) = false :=
          Bool.eq_false_iff.mpr hvalid
        by_cases h2 : is2xx resp.status = true
        · cases hat : resp.access_token with
          | none =>
            rw [refresh_token_core, hfind] at hok
            simp [hvalid', h2, hat] at hok
          | some newTok =>
            rw [refresh_core_refreshes "google" db u now resp token newTok
              hfind hvalid' h2 hat] at hok ⊢
            simp only [Except.ok.injEq] at hok
            subst hok
            refine ⟨_, updateFirst_mem _ _ db (by rw [hfind]; rfl), rfl,
              now + resp.expires_in.getD 3600, rfl, ?_⟩
            omega
        · have h2' : is2xx resp.status = false := Bool.eq_false_iff.mpr h2
          rw [refresh_core_http_error "google" db u now resp token hfind hvalid' h2'] at hok
          simp at hok

/-- C1, witness: the amended theorem evaluated on concrete inputs.  A
credential valid until 200 is returned unchanged at `now = 100` and its
expiry lies in the future; a table whose only row for the pair is expired
yields `none`; a refresh answered with `expires_in = 3600` stores an expiry
strictly after `now`. -/
theorem C1_amended_witness :
    (∃ e, (Credential.mk "u1" "google" "tok" none (some 200)).expires_at = some e ∧
      (100 : Int) < e) ∧
    get_user_token [⟨"u1", "google", "tok-old", none, some 50⟩] "u1" "google" 100 = none ∧
    (∃ t ∈ (refresh_google_token [⟨"u1", "google", "tok-old", none, some 50⟩] "u1" 100
        ⟨200, some "tok-new", none, some 3600⟩).db,
      t.access_token = "tok-new" ∧ ∃ e, t.expires_at = some e ∧ (100 : Int) < e) :=
  ⟨C1_amended.1 [⟨"u1", "google", "tok", none, some 200⟩] "u1" "google" 100
      ⟨"u1", "google", "tok", none, some 200⟩ (by decide),
   C1_amended.2.1 [⟨"u1", "google", "tok-old", none, some 50⟩] "u1" "google" 100
      (by decide),
   C1_amended.2.2 [⟨"u1", "google", "tok-old", none, some 50⟩] "u1" 100
      ⟨200, some "tok-new", none, some 3600⟩ "tok-new" (by decide) (by decide)⟩

/-! ### Claim C2 -/

theorem collect_outputs_map (argDecode : String → Option Args)
    (toolEval : String → Args → String) :
    ∀ calls : List ToolCall,
      (∀ c ∈ calls, (argDecode c.arguments).isSome) →
      collect_outputs argDecode toolEval calls =
        .ok (calls.map (fun c =>
          ⟨c.id, dispatch_tool toolEval c.function_name
            ((argDecode c.arguments).getD [])⟩)) := by
  intro calls
  induction calls with
  | nil => intro _; rfl
  | cons c rest ih =>
    intro hdec
    have hc : (argDecode c.arguments).isSome := hdec c (List.mem_cons_self c rest)
    obtain ⟨args, hargs⟩ := Option.isSome_iff_exists.mp hc
    have hrest := ih (fun x hx => hdec x (List.mem_cons_of_mem c hx))
    simp [collect_outputs, hargs, hrest]

theorem dispatch_unknown (toolEval : String → Args → String)
    (name : String) (args : Args) (h : knownFunction name = false) :
    dispatch_tool toolEval name args = "Função não encontrada" := by
  simp only [knownFunction, Bool.or_eq_false_iff, beq_eq_false_iff_ne] at h
  obtain ⟨⟨⟨⟨⟨⟨⟨⟨⟨h1, h2⟩, h3⟩, h4⟩, h5⟩, h6⟩, h7⟩, h8⟩, h9⟩, h10⟩ := h
  simp [dispatch_tool, h1, h2, h3, h4, h5, h6, h7, h8, h9, h10]

/-- C2, counterexample.  A `requires_action` batch of two tool calls whose
second call carries a non-JSON-decodable arguments string: `json.loads`
raises on it (main.py line 557, outside every `try`), so
`handle_tool_calls` aborts with zero tool outputs collected and no
submission performed — not the two outputs, one per call, that the claim
demands for every batch. -/
theorem C2_counterexample :
    handle_tool_calls (fun a => if a == "oops" then none else some [])
      (fun _ _ => "ok")
      (some [⟨"call_a", "resumir_texto", "bom"⟩, ⟨"call_b", "traduzir", "oops"⟩])
      "run_9" = .error "json.decoder.JSONDecodeError" := by
  decide

/-- C2, amended: for a `requires_action` batch of N ≥ 1 tool calls whose
argument payloads all JSON-decode, `handle_tool_calls` produces exactly N
tool outputs, the i-th carrying the id of the i-th call, and performs one
single submission containing the full list, with a call whose function
name matches no dispatch branch still contributing an output holding the
fixed "function not implemented" text (`"Função não encontrada"`); a batch
containing a call whose arguments do not decode instead aborts with an
uncaught `JSONDecodeError`, producing no outputs and no submission (the
counterexample). -/
theorem C2_batch_complete (argDecode : String → Option Args)
    (toolEval : String → Args → String)
    (calls : List ToolCall) (run_id : String)
    (hne : calls ≠ [])
    (hdec : ∀ c ∈ calls, (argDecode c.arguments).isSome) :
    ∃ outs,
      handle_tool_calls argDecode toolEval (some calls) run_id =
        .ok (outs, [⟨run_id, outs⟩]) ∧
      outs.length = calls.length ∧
      outs.map ToolOutput.tool_call_id = calls.map ToolCall.id ∧
      ∀ c ∈ calls, knownFunction c.function_name = false →
        (⟨c.id, "Função não encontrada"⟩ : ToolOutput) ∈ outs := by
  refine ⟨calls.map (fun c =>
    ⟨c.id, dispatch_tool toolEval c.function_name
      ((argDecode c.arguments).getD [])⟩), ?_, ?_, ?_, ?_⟩
  · have hco := collect_outputs_map argDecode toolEval calls hdec
    have hempty : (calls.map (fun c =>
        (⟨c.id, dispatch_tool toolEval c.function_name
          ((argDecode c.arguments).getD [])⟩ : ToolOutput))).isEmpty = false := by
      cases calls with
      | nil => exact absurd rfl hne
      | cons a l => rfl
    simp [handle_tool_calls, hco, hempty]
  · simp
  · rw [List.map_map]
    rfl
  · intro c hc hunknown
    exact List.mem_map.mpr ⟨c, hc,
      by simp [dispatch_unknown toolEval c.function_name _ hunknown]⟩

/-- C2, witness: a concrete batch of two calls — one recognized
(`traduzir`), one unrecognized (`fazer_cafe`) — yields two outputs with
matching call ids, one submission, and the fixed text for the unknown
name. -/
theorem C2_batch_complete_witness :
    ∃ outs,
      handle_tool_calls (fun _ => some []) (fun _ _ => "ok")
        (some [⟨"call_1", "traduzir", "a1"⟩, ⟨"call_2", "fazer_cafe", "a2"⟩])
        "run_1" = .ok (outs, [⟨"run_1", outs⟩]) ∧
      outs.length = ([⟨"call_1", "traduzir", "a1"⟩,
        ⟨"call_2", "fazer_cafe", "a2"⟩] : List ToolCall).length ∧
      outs.map ToolOutput.tool_call_id =
        ([⟨"call_1", "traduzir", "a1"⟩,
          ⟨"call_2", "fazer_cafe", "a2"⟩] : List ToolCall).map ToolCall.id ∧
      ∀ c ∈ ([⟨"call_1", "traduzir", "a1"⟩,
          ⟨"call_2", "fazer_cafe", "a2"⟩] : List ToolCall),
        knownFunction c.function_name = false →
        (⟨c.id, "Função não encontrada"⟩ : ToolOutput) ∈ outs :=
  C2_batch_complete (fun _ => some []) (fun _ _ => "ok")
    [⟨"call_1", "traduzir", "a1"⟩, ⟨"call_2", "fazer_cafe", "a2"⟩] "run_1"
    (by decide) (fun c _ => rfl)

/-! ### Claim C3 -/

/-- C3, counterexample.  A batch containing one tool call whose arguments
string does not JSON-decode (`json.loads` raises): `handle_tool_calls`
propagates the `JSONDecodeError` instead of producing a tool output —
`json.loads(tool_call.function.arguments)` runs outside every `try` block,
so the exception escapes the dispatch boundary, contradicting the claim
that no exception from dispatch escapes `handle_tool_calls`. -/
theorem C3_counterexample :
    handle_tool_calls (fun a => if a == "bad-json" then none else some [])
      (fun _ _ => "ok") (some [⟨"call_1", "traduzir", "bad-json"⟩]) "run_1" =
      .error "json.decoder.JSONDecodeError" := by
  decide

/-- C3, amended: failures inside the tool implementations are absorbed —
a missing credential and an upstream HTTP error both become human-readable
error strings returned as the call's output (shown on
`listar_eventos_google_tool`), and whenever every call's arguments
JSON-decode, `handle_tool_calls` completes without raising, with one
collected output per call; but malformed, non-JSON-decodable arguments
make `json.loads` raise out of `handle_tool_calls`, because the decode
happens outside any `try` block. -/
theorem C3_amended :
    (∀ (argDecode : String → Option Args) (toolEval : String → Args → String)
       (ra : Option (List ToolCall)) (run_id : String),
      (∀ calls, ra = some calls → ∀ c ∈ calls, (argDecode c.arguments).isSome) →
      ∃ outs subs, handle_tool_calls argDecode toolEval ra run_id = .ok (outs, subs) ∧
        ∀ calls, ra = some calls → outs.length = calls.length) ∧
    (∀ (db : CredDB) (u : String) (now : Int) (httpResult : Except String String),
      get_user_token db u "google" now = none →
      listar_eventos_google_tool db u now httpResult =
        "❌ Usuário não autenticado no Google Calendar. Use /auth google") ∧
    (∀ (db : CredDB) (u : String) (now : Int) (t : Credential) (e : String),
      get_user_token db u "google" now = some t →
      listar_eventos_google_tool db u now (.error e) =
        "❌ Erro ao acessar Google Calendar: " ++ e) := by
  refine ⟨?_, ?_, ?_⟩
  · intro argDecode toolEval ra run_id hdec
    cases ra with
    | none =>
      refine ⟨[], [], rfl, ?_⟩
      intro calls hcalls
      exact Option.noConfusion hcalls
    | some calls =>
      have hco := collect_outputs_map argDecode toolEval calls (hdec calls rfl)
      have hres : handle_tool_calls argDecode toolEval (some calls) run_id =
          .ok (calls.map (fun c =>
              ⟨c.id, dispatch_tool toolEval c.function_name
                ((argDecode c.arguments).getD [])⟩),
            if (calls.map (fun c =>
                (⟨c.id, dispatch_tool toolEval c.function_name
                  ((argDecode c.arguments).getD [])⟩ : ToolOutput))).isEmpty then []
            else [⟨run_id, calls.map (fun c =>
              ⟨c.id, dispatch_tool toolEval c.function_name
                ((argDecode c.arguments).getD [])⟩)⟩]) := by
        simp [handle_tool_calls, hco]
      refine ⟨_, _, hres, ?_⟩
      intro calls' hcalls'
      injection hcalls' with h
      subst h
      simp
  · intro db u now httpResult hnone
    simp [listar_eventos_google_tool, hnone]
  · intro db u now t e hsome
    simp [listar_eventos_google_tool, hsome]

/-- C3, witness: the amended theorem at concrete inputs — a decodable
batch completes without an exception, with one output for its one call; an
empty credential table yields the authentication-required string; an HTTP
error against a valid credential yields the error string. -/
theorem C3_amended_witness :
    (∃ outs subs, handle_tool_calls (fun _ => some []) (fun _ _ => "ok")
      (some [⟨"call_1", "traduzir", "a1"⟩]) "run_1" = .ok (outs, subs) ∧
      ∀ calls, (some [⟨"call_1", "traduzir", "a1"⟩] : Option (List ToolCall)) =
        some calls → outs.length = calls.length) ∧
    listar_eventos_google_tool [] "u1" 100 (.ok "eventos") =
      "❌ Usuário não autenticado no Google Calendar. Use /auth google" ∧
    listar_eventos_google_tool [⟨"u1", "google", "tok", none, some 200⟩] "u1" 100
      (.error "HTTP 503") = "❌ Erro ao acessar Google Calendar: " ++ "HTTP 503" :=
  ⟨C3_amended.1 (fun _ => some []) (fun _ _ => "ok")
      (some [⟨"call_1", "traduzir", "a1"⟩]) "run_1"
      (by intro calls hcalls c hc; cases hcalls; rfl),
   C3_amended.2.1 [] "u1" 100 (.ok "eventos") (by decide),
   C3_amended.2.2 [⟨"u1", "google", "tok", none, some 200⟩] "u1" 100
      ⟨"u1", "google", "tok", none, some 200⟩ "HTTP 503" (by decide)⟩

/-! ### Claim C4 -/

/-- C4: the `while True:` loop of `call_openai_assistant` has no iteration
cap and no timeout.  With a run whose status stays `"running"` at every
poll, the loop is still polling after any number of iterations — it never
terminates and never produces a `RunTimeout`-derived failure message.  The
spec itself records this as a gap (§9 "Unbounded polling loop"): the claim
describes the required behaviour, which the code does not implement. -/
theorem C4_unbounded_polling :
    ∀ (fuel i : Nat) (finalReply : String),
      poll_loop (fun _ => "running") finalReply i fuel = none := by
  intro fuel
  induction fuel with
  | zero => intro i r; rfl
  | succ n ih =>
    intro i r
    simp only [poll_loop]
    norm_num
    exact ih (i + 1) r

/-! ### Claim C5 -/

/-- C5, confirmed.  For a registry state in which at most one
`ThreadMapping` row exists for the conversation and every mapped thread
still exists remotely, calling `get_or_create_thread` twice in sequence
returns the same `thread_id` both times, and afterwards at most one
`ThreadMapping` row exists for that `conversation_id` — the second call
finds the stored mapping, successfully retrieves the thread, and neither
creates a second thread nor inserts a second row. -/
theorem C5_thread_idempotent (s : ThreadState) (conv : String)
    (hcount : (mappingsFor s conv).length ≤ 1)
    (hlive : ∀ m ∈ s.mappings, m.2 ∈ s.remote) :
    (get_or_create_thread s conv).1 =
      (get_or_create_thread (get_or_create_thread s conv).2 conv).1 ∧
    (mappingsFor
      (get_or_create_thread (get_or_create_thread s conv).2 conv).2 conv).length ≤ 1 := by
  cases hfind : s.mappings.find? (fun m => m.1 == conv) with
  | some m =>
    have hm : m ∈ s.mappings := List.mem_of_find?_eq_some hfind
    have hmem : m.2 ∈ s.remote := hlive m hm
    have hgoc : get_or_create_thread s conv = (m.2, s) := by
      simp [get_or_create_thread, get_thread_id, hfind, hmem]
    rw [hgoc]
    exact ⟨by rw [hgoc], by rw [hgoc]; exact hcount⟩
  | none =>
    have hnone := List.find?_eq_none.mp hfind
    have hgoc1 : get_or_create_thread s conv =
        ("thread_" ++ toString s.nextId,
          ⟨s.mappings ++ [(conv, "thread_" ++ toString s.nextId)],
           s.remote ++ ["thread_" ++ toString s.nextId], s.nextId + 1⟩) := by
      simp [get_or_create_thread, get_thread_id, hfind, create_remote_thread,
        save_thread_mapping]
    have hfind2 :
        (s.mappings ++ [(conv, "thread_" ++ toString s.nextId)]).find?
          (fun m => m.1 == conv) = some (conv, "thread_" ++ toString s.nextId) := by
      rw [List.find?_append, hfind]
      simp
    have hgoc2 : get_or_create_thread
        (⟨s.mappings ++ [(conv, "thread_" ++ toString s.nextId)],
          s.remote ++ ["thread_" ++ toString s.nextId], s.nextId + 1⟩ : ThreadState)
        conv =
        ("thread_" ++ toString s.nextId,
          ⟨s.mappings ++ [(conv, "thread_" ++ toString s.nextId)],
           s.remote ++ ["thread_" ++ toString s.nextId], s.nextId + 1⟩) := by
      simp [get_or_create_thread, get_thread_id, hfind2]
    rw [hgoc1]
    constructor
    · rw [hgoc2]
    · rw [hgoc2]
      have hfilter : (s.mappings.filter (fun m => m.1 == conv)) = [] :=
        List.filter_eq_nil_iff.mpr hnone
      simp [mappingsFor, List.filter_append, hfilter]

/-- C5, witness: starting from an empty registry, two sequential calls for
conversation `"conv1"` agree on the thread id and leave exactly one
mapping row. -/
theorem C5_thread_idempotent_witness :
    (get_or_create_thread ⟨[], [], 0⟩ "conv1").1 =
      (get_or_create_thread (get_or_create_thread ⟨[], [], 0⟩ "conv1").2 "conv1").1 ∧
    (mappingsFor
      (get_or_create_thread
        (get_or_create_thread ⟨[], [], 0⟩ "conv1").2 "conv1").2 "conv1").length ≤ 1 :=
  C5_thread_idempotent ⟨[], [], 0⟩ "conv1" (by decide) (by simp)

/-! ### Claim C6 -/

/-- C6, counterexample.  `main.py save_user_token` (used by `main.py`'s
own `/auth/callback`) builds a fresh `UserTokens` row and `session.add`s
it on every call: two authorizations for the same `("u1", "google")` pair
leave two rows in the table, not one mutated row. -/
theorem C6_counterexample :
    ((save_user_token (save_user_token [] "u1" "google" "tok1" none 3600 0)
        "u1" "google" "tok2" none 3600 100).filter
      (credMatches "u1" "google")).length = 2 := by
  decide

/-- C6, amended: no path of the program maintains the claimed
create-then-mutate-in-place discipline.  `main.py save_user_token` inserts
an additional row on every call, so re-authorization through `main.py`'s
callback accumulates one row per authorization (the counterexample); the
refresh client does mutate in place, never changing the number of rows;
and `auth_routes.auth_callback` — the route the claim credits with the
in-place update — never creates or mutates any row at all: its save block
dies at `UserTokens.select()` with `AttributeError`, answered as HTTP 500,
leaving the credential table unchanged on every invocation. -/
theorem C6_amended :
    (∀ (db : CredDB) (state : String) (resp : TokenResponse),
      (auth_callback db state resp).2 = db) ∧
    (∀ (db : CredDB) (u : String) (now : Int) (resp : TokenResponse),
      ((refresh_google_token db u now resp).db).length = db.length) ∧
    (∀ (db : CredDB) (u p a_tok : String) (r_tok : Option String)
       (expires_in now : Int),
      (save_user_token db u p a_tok r_tok expires_in now).length = db.length + 1) := by
  refine ⟨?_, ?_, ?_⟩
  · intro db state resp
    unfold auth_callback
    split
    · rfl
    · split
      · rfl
      · rfl
  · intro db u now resp
    unfold refresh_google_token refresh_token_core
    cases hfind : db.find? (credMatches u "google") with
    | none => rfl
    | some token =>
      by_cases hvalid :
          (pyTruthy token.expires_at && decide (now < token.expires_at.getD 0)) = true
      · simp [hvalid]
      · by_cases h2 : (!is2xx resp.status) = true
        · simp [hvalid, h2]
        · cases hat : resp.access_token with
          | none => simp [hvalid, h2, hat]
          | some newTok => simp [hvalid, h2, hat, updateFirst_length]
  · intro db u p a_tok r_tok expires_in now
    simp [save_user_token]

/-! ### Claim C7 -/

/-- C7, confirmed.  When the provider's token endpoint answers the refresh
POST with a non-2xx status, `raise_for_status()` raises (the spec's
`TokenRefreshFailed`, concretely an `httpx.HTTPStatusError`) before any
assignment to the fetched row, so both `refresh_google_token` and
`refresh_ms_token` return the error having issued exactly one request and
leave the credential table — every field of every row — unchanged. -/
theorem C7_refresh_failure_preserves_row (db : CredDB) (u : String) (now : Int)
    (resp : TokenResponse) (token : Credential)
    (h2 : is2xx resp.status = false) :
    (db.find? (credMatches u "google") = some token →
      (pyTruthy token.expires_at && decide (now < token.expires_at.getD 0)) = false →
      refresh_google_token db u now resp =
        ⟨1, .error (.httpStatus resp.status), db⟩) ∧
    (db.find? (credMatches u "microsoft") = some token →
      (pyTruthy token.expires_at && decide (now < token.expires_at.getD 0)) = false →
      refresh_ms_token db u now resp =
        ⟨1, .error (.httpStatus resp.status), db⟩) :=
  ⟨fun hfind hvalid =>
      refresh_core_http_error "google" db u now resp token hfind hvalid h2,
   fun hfind hvalid =>
      refresh_core_http_error "microsoft" db u now resp token hfind hvalid h2⟩

/-- C7, witness: a table holding one expired credential per provider, and
an HTTP 400 answer: both refresh functions raise and return the table
unchanged. -/
theorem C7_refresh_failure_preserves_row_witness :
    refresh_google_token [⟨"u1", "google", "tok", some "r1", some 50⟩] "u1" 100
      ⟨400, none, none, none⟩ =
      ⟨1, .error (.httpStatus 400), [⟨"u1", "google", "tok", some "r1", some 50⟩]⟩ ∧
    refresh_ms_token [⟨"u1", "microsoft", "tok", some "r1", some 50⟩] "u1" 100
      ⟨400, none, none, none⟩ =
      ⟨1, .error (.httpStatus 400), [⟨"u1", "microsoft", "tok", some "r1", some 50⟩]⟩ :=
  ⟨(C7_refresh_failure_preserves_row [⟨"u1", "google", "tok", some "r1", some 50⟩]
      "u1" 100 ⟨400, none, none, none⟩ ⟨"u1", "google", "tok", some "r1", some 50⟩
      (by decide)).1 (by decide) (by decide),
   (C7_refresh_failure_preserves_row [⟨"u1", "microsoft", "tok", some "r1", some 50⟩]
      "u1" 100 ⟨400, none, none, none⟩ ⟨"u1", "microsoft", "tok", some "r1", some 50⟩
      (by decide)).2 (by decide) (by decide)⟩

/-! ### Claim C8 -/

/-- C8, confirmed.  For a stored credential whose expiry has passed
(`expires_at = e_old ≤ now`), one call to the refresh operation issues
exactly one POST to the provider's token endpoint, and — for a successful
response carrying an access token and a positive `expires_in` (3600 when
the field is absent) — the stored row afterwards carries
`expires_at = now + expires_in`, strictly greater than `e_old`. -/
theorem C8_refresh_increases_expiry (db : CredDB) (u : String) (now : Int)
    (resp : TokenResponse) (token : Credential) (e_old : Int) (a_tok : String)
    (hfind : db.find? (credMatches u "google") = some token)
    (hexp : token.expires_at = some e_old)
    (hpast : e_old ≤ now)
    (h2 : is2xx resp.status = true)
    (hat : resp.access_token = some a_tok)
    (hpos : 0 < resp.expires_in.getD 3600) :
    (refresh_google_token db u now resp).requests = 1 ∧
    (refresh_google_token db u now resp).result = .ok a_tok ∧
    ∃ t ∈ (refresh_google_token db u now resp).db,
      credMatches u "google" t = true ∧
      t.expires_at = some (now + resp.expires_in.getD 3600) ∧
      e_old < now + resp.expires_in.getD 3600 := by
  have hnl : ¬ (now < e_old) := not_lt.mpr hpast
  have hvalid :
      (pyTruthy token.expires_at && decide (now < token.expires_at.getD 0)) = false := by
    simp [hexp, pyTruthy, hnl]
  unfold refresh_google_token
  rw [refresh_core_refreshes "google" db u now resp token a_tok hfind hvalid h2 hat]
  refine ⟨rfl, rfl, _, updateFirst_mem _ _ db (by rw [hfind]; rfl), ?_, rfl, by omega⟩
  exact (List.find?_some hfind : credMatches u "google" token = true)

/-- C8, witness: a credential expired at 50, refreshed at `now = 100` with
`expires_in = 3600`: one request, the new token is returned, and the
stored expiry becomes 3700 > 50. -/
theorem C8_refresh_increases_expiry_witness :
    (refresh_google_token [⟨"u1", "google", "tok", some "r1", some 50⟩] "u1" 100
      ⟨200, some "tok2", none, some 3600⟩).requests = 1 ∧
    (refresh_google_token [⟨"u1", "google", "tok", some "r1", some 50⟩] "u1" 100
      ⟨200, some "tok2", none, some 3600⟩).result = .ok "tok2" ∧
    ∃ t ∈ (refresh_google_token [⟨"u1", "google", "tok", some "r1", some 50⟩] "u1" 100
      ⟨200, some "tok2", none, some 3600⟩).db,
      credMatches "u1" "google" t = true ∧
      t.expires_at = some (100 + (⟨200, some "tok2", none, some 3600⟩ :
        TokenResponse).expires_in.getD 3600) ∧
      (50 : Int) < 100 + (⟨200, some "tok2", none, some 3600⟩ :
        TokenResponse).expires_in.getD 3600 :=
  C8_refresh_increases_expiry [⟨"u1", "google", "tok", some "r1", some 50⟩] "u1" 100
    ⟨200, some "tok2", none, some 3600⟩ ⟨"u1", "google", "tok", some "r1", some 50⟩
    50 "tok2" (by decide) rfl (by decide) (by decide) rfl (by decide)

/-! ### Claim C9 -/

/-- C9, counterexample.  An error propagating out of orchestration into
the `/api/messages` handler is re-raised as
`HTTPException(status_code=500)`: the platform receives an HTTP 500 error
status, not a safe 200-equivalent acknowledgment. -/
theorem C9_counterexample :
    messages_endpoint (.error "boom") = ⟨500, "boom"⟩ ∧
    (messages_endpoint (.error "boom")).status ≠ 200 := by
  exact ⟨rfl, by decide⟩

/-- C9, amended: the webhook handler catches any error propagating out of
orchestration, but converts it into an HTTP 500 error response carrying
the error detail — an error status returned to the messaging platform —
while only successful processing is acknowledged with the adapter's
response or a bare 200. -/
theorem C9_amended :
    (∀ e, messages_endpoint (.error e) = ⟨500, e⟩) ∧
    messages_endpoint (.ok none) = ⟨200, ""⟩ ∧
    (∀ r, messages_endpoint (.ok (some r)) = r) :=
  ⟨fun _ => rfl, rfl, fun _ => rfl⟩

/-! ### Claim C10 -/

/-- C10: the claim describes the save block's evident intent —
`auth_routes.auth_callback` hard-codes `user_id = "user-demo"` and its
comments announce "Salvar tokens no banco" / "Atualizar token existente" /
"Criar novo token" — but the block's first statement `UserTokens.select()`
raises `AttributeError` (SQLModel model classes have no `select`
classmethod and `auth_routes.py` never imports the module-level `select`
every other file uses), so no invocation ever reaches the lookup, the
update or the insert: even a fully successful token exchange is answered
with `HTTPException 500` and the credential table is returned unchanged —
nothing is ever persisted under `"user-demo"` or any other user id by this
route. -/
theorem C10_route_crashes (db : CredDB) (state : String) (resp : TokenResponse)
    (hstate : state = "google" ∨ state = "microsoft")
    (h2 : is2xx resp.status = true) :
    auth_callback db state resp = (.httpError 500, db) := by
  have hcond : (state != "google" && state != "microsoft") = false := by
    cases hstate with
    | inl h => simp [h]
    | inr h => simp [h]
  simp [auth_callback, hcond, h2]

/-- C10, witness: a Google callback whose token exchange fully succeeds
(HTTP 200, access and refresh tokens present) still answers 500 and leaves
the empty credential table empty. -/
theorem C10_route_crashes_witness :
    auth_callback [] "google" ⟨200, some "a1", some "r1", some 3600⟩ =
      (.httpError 500, []) :=
  C10_route_crashes [] "google" ⟨200, some "a1", some "r1", some 3600⟩
    (Or.inl rfl) (by decide)

end Xuxu
